import Mathlib

/-!
# Verification of the download coordinator of `youtube-downloader-gui`

Shallow embedding of the three source modules (`downloader.py`, `app_gui.py`,
`main.py`). The external world (pytube, FFmpeg, the file dialog, Tkinter) is
modelled by an oracle structure `Engine` describing how each external call
behaves during one job; the embedded code is a function of that oracle.

Conventions of the embedding:
* Python floats are idealized as exact rationals (`ℚ`); `int(x)` on a float
  truncates toward zero, modelled by `pyInt`.
* A Python exception is a value of `PyExc`; `try/except/finally` becomes
  explicit sequencing on an `Option PyExc` field.
* The file system is the list of existing file names in the working
  directory (`os.path.exists` / `os.remove` act on that list and succeed).
* Each callback invocation made by the worker is an element of a `CbEvent`
  trace, in the order the source makes the calls.
-/

/-! ## downloader.py -/

/-- `TEMP_VIDEO_FILE = "temp_video.mp4"` (downloader.py line 32). -/
def TEMP_VIDEO_FILE : String := "temp_video.mp4"

/-- `TEMP_AUDIO_FILE = "temp_audio.mp4"` (downloader.py line 33). -/
def TEMP_AUDIO_FILE : String := "temp_audio.mp4"

/-- Python `int(x)` applied to a float: truncation toward zero. -/
def pyInt (q : ℚ) : ℤ := if 0 ≤ q then ⌊q⌋ else ⌈q⌉

/-- `percentage = (bytes_downloaded / total_size) * 100` with
`bytes_downloaded = total_size - bytes_remaining` (downloader.py lines 76-81). -/
def fetchPercentage (filesize bytesRemaining : ℕ) : ℚ :=
  (((filesize : ℚ) - (bytesRemaining : ℚ)) / (filesize : ℚ)) * 100

/-- `int(percentage * 0.9)` — the value handed to `update_progress`
(downloader.py line 85). -/
def normalizeFetchPercent (percentage : ℚ) : ℤ :=
  pyInt (percentage * (9 / 10))

/-- `_on_pytube_progress` (downloader.py lines 69-85): from the raw pytube
report `(stream.filesize, bytes_remaining)` to the reported progress value. -/
def on_pytube_progress (filesize bytesRemaining : ℕ) : ℤ :=
  normalizeFetchPercent (fetchPercentage filesize bytesRemaining)

/-- `self.update_progress(90)` before the FFmpeg merge (downloader.py line 141). -/
def mergeProgress : ℤ := 90

/-- `self.update_progress(100)` after the merge (downloader.py line 166). -/
def finishProgress : ℤ := 100

/-- One invocation of one of the four callbacks the `VideoDownloader` was
constructed with (`update_status`, `update_progress`, `notify_error`,
`notify_complete`). -/
inductive CbEvent where
  | status (msg : String)
  | progress (valor : ℤ)
  | error (msg : String)
  | complete (msg : String)
deriving DecidableEq

/-- A raised Python exception, as distinguished by the two `except` clauses of
`iniciar_download`: `subprocess.CalledProcessError` (carrying `e.stderr`)
versus any other `Exception` (carrying `str(e)`). -/
inductive PyExc where
  | calledProcess (stderr : String)
  | general (msg : String)
deriving DecidableEq

/-- Oracle for the external world during one `iniciar_download` run. Fields
whose names say so are never consulted by the embedded code; they exist so
that theorems can state that the code ignores them. Defaults describe a fully
successful run. -/
structure Engine where
  /-- `YouTube(url, ...)` constructs without raising. -/
  ytOk : Bool := true
  /-- `str(e)` of the exception when `YouTube(url, ...)` raises. -/
  ytErrorMsg : String := ""
  /-- `self.yt.title`. -/
  title : String := ""
  /-- the adaptive mp4 video-only filter finds a stream (`video_stream` truthy). -/
  hasVideoStream : Bool := true
  /-- the adaptive mp4 audio-only filter finds a stream (`audio_stream` truthy). -/
  hasAudioStream : Bool := true
  /-- a progressive (combined audio+video) stream exists; never consulted by
  the code — `iniciar_download` has no fallback that would use it. -/
  hasCombinedStream : Bool := true
  /-- `video_stream.resolution`. -/
  videoResolution : String := ""
  /-- `audio_stream.abr`. -/
  audioAbr : String := ""
  /-- pytube progress reports `(stream.filesize, bytes_remaining)` fired while
  downloading the video stream. -/
  videoProgress : List (ℕ × ℕ) := []
  /-- `video_stream.download(...)` returns without raising. -/
  videoDownloadOk : Bool := true
  /-- `str(e)` when the video download raises. -/
  videoErrorMsg : String := ""
  /-- pytube progress reports fired while downloading the audio stream. -/
  audioProgress : List (ℕ × ℕ) := []
  /-- `audio_stream.download(...)` returns without raising. -/
  audioDownloadOk : Bool := true
  /-- `str(e)` when the audio download raises. -/
  audioErrorMsg : String := ""
  /-- the `ffmpeg` subprocess exits with status 0 (`check=True` does not raise). -/
  ffmpegOk : Bool := true
  /-- `e.stderr` of the `CalledProcessError` when FFmpeg fails. -/
  ffmpegStderr : String := ""
  /-- file name the engine itself would report for the produced file; never
  consulted by the code — the completion message uses `caminho_final`. -/
  reportedFilename : String := ""
deriving DecidableEq

/-- The progress callbacks pytube fires during one `stream.download(...)`
call, each going through `_on_pytube_progress`. -/
def downloadEvents (reports : List (ℕ × ℕ)) : List CbEvent :=
  reports.map fun r => CbEvent.progress (on_pytube_progress r.1 r.2)

/-- Result of the `try` block of `iniciar_download`: the callback trace so
far, the files now existing in the working directory, and the exception that
escaped the block, if any. -/
structure BodyResult where
  events : List CbEvent
  files : List String
  exc : Option PyExc
deriving DecidableEq

/-- `str(ValueError(...))` raised when an adaptive stream is missing
(downloader.py line 128). -/
def noStreamsMsg : String :=
  "Não foi possível encontrar streams adaptativos de áudio/vídeo."

/-- The `try` block of `iniciar_download` (downloader.py lines 108-168),
line by line. A download call leaves its temporary file behind even when it
raises (a partial file may exist; only its presence matters, and
`_limpar_temporarios` removes it either way). -/
def downloadBody (eng : Engine) (url caminho_final : String)
    (files : List String) : BodyResult :=
  -- url is consumed by `YouTube(url, on_progress_callback=...)`, whose
  -- success or failure the oracle field `ytOk` describes.
  let evs := [CbEvent.status "Validando URL e conectando ao YouTube...",
              CbEvent.progress 0]
  if !eng.ytOk then ⟨evs, files, some (PyExc.general eng.ytErrorMsg)⟩ else
  let evs := evs ++ [CbEvent.status ("Buscando streams para: " ++ eng.title)]
  if !(eng.hasVideoStream && eng.hasAudioStream) then
    ⟨evs, files, some (PyExc.general noStreamsMsg)⟩ else
  let evs := evs ++ [CbEvent.status ("Baixando vídeo (" ++ eng.videoResolution ++ ")...")]
              ++ downloadEvents eng.videoProgress
  let files := TEMP_VIDEO_FILE :: files
  if !eng.videoDownloadOk then ⟨evs, files, some (PyExc.general eng.videoErrorMsg)⟩ else
  let evs := evs ++ [CbEvent.status ("Baixando áudio (" ++ eng.audioAbr ++ ")..."),
                     CbEvent.progress 0]
              ++ downloadEvents eng.audioProgress
  let files := TEMP_AUDIO_FILE :: files
  if !eng.audioDownloadOk then ⟨evs, files, some (PyExc.general eng.audioErrorMsg)⟩ else
  let evs := evs ++ [CbEvent.status "Juntando áudio e vídeo com FFmpeg...",
                     CbEvent.progress mergeProgress]
  if !eng.ffmpegOk then ⟨evs, files, some (PyExc.calledProcess eng.ffmpegStderr)⟩ else
  ⟨evs ++ [CbEvent.progress finishProgress,
           CbEvent.status "Merge concluído.",
           CbEvent.complete ("Download Concluído!\nSalvo em: " ++ caminho_final)],
   caminho_final :: files, none⟩

/-- The two `except` clauses of `iniciar_download` (downloader.py lines
170-178). The match is total: `except Exception` is a catch-all, so no
exception the pipeline can raise escapes the handler. -/
def handleExc : PyExc → List CbEvent
  | PyExc.calledProcess stderr =>
      [CbEvent.status "Erro no FFmpeg. Verifique a instalação.",
       CbEvent.error ("Erro no FFmpeg:\n" ++ stderr)]
  | PyExc.general m =>
      [CbEvent.status ("Erro: " ++ m),
       CbEvent.error ("Falha no Download:\n" ++ m)]

/-- `_limpar_temporarios` (downloader.py lines 87-95): a status message, then
`os.remove` of each temporary file that exists. -/
def limpar_temporarios (files : List String) : List CbEvent × List String :=
  ([CbEvent.status "Limpando arquivos temporários..."],
   (files.filter fun f => f != TEMP_VIDEO_FILE).filter fun f => f != TEMP_AUDIO_FILE)

/-- Outcome of one full `iniciar_download` run: the callback trace and the
files existing in the working directory afterwards. -/
structure RunResult where
  events : List CbEvent
  files : List String
deriving DecidableEq

/-- `VideoDownloader.iniciar_download` (downloader.py lines 97-182):
the `try` body, then the matching `except` clause if an exception escaped the
body, then the `finally` cleanup — on every path. -/
def iniciar_download (eng : Engine) (url caminho_final : String)
    (files : List String) : RunResult :=
  let body := downloadBody eng url caminho_final files
  let handler := match body.exc with
    | none => []
    | some e => handleExc e
  let cleanup := limpar_temporarios body.files
  ⟨body.events ++ handler ++ cleanup.1, cleanup.2⟩

/-- The values passed to `update_progress` in a trace, in order. -/
def progressValues (evs : List CbEvent) : List ℤ :=
  evs.filterMap fun e => match e with
    | CbEvent.progress v => some v
    | _ => none

/-- The messages passed to `notify_error` in a trace, in order. -/
def errorMsgs (evs : List CbEvent) : List String :=
  evs.filterMap fun e => match e with
    | CbEvent.error m => some m
    | _ => none

/-- The messages passed to `notify_complete` in a trace, in order. -/
def completeMsgs (evs : List CbEvent) : List String :=
  evs.filterMap fun e => match e with
    | CbEvent.complete m => some m
    | _ => none

/-- Every step of the pipeline succeeded. -/
def engineSucceeds (eng : Engine) : Prop :=
  eng.ytOk = true ∧ eng.hasVideoStream = true ∧ eng.hasAudioStream = true ∧
  eng.videoDownloadOk = true ∧ eng.audioDownloadOk = true ∧ eng.ffmpegOk = true

/-- Some step of the pipeline raised. -/
def engineFails (eng : Engine) : Prop :=
  eng.ytOk = false ∨ (eng.hasVideoStream && eng.hasAudioStream) = false ∨
  eng.videoDownloadOk = false ∨ eng.audioDownloadOk = false ∨ eng.ffmpegOk = false

/-! ## app_gui.py -/

/-- The widget state `AppGUI` mutates: the states set by `_set_ui_state`, the
progress bar value, and the status text log. -/
structure GuiState where
  /-- `botao_baixar` is in state `"normal"` (as opposed to `"disabled"`). -/
  botaoBaixarEnabled : Bool
  /-- `entry_url` is in state `"normal"` (as opposed to `"readonly"`). -/
  entryUrlEditable : Bool
  /-- `radio_mp4` / `radio_mp3` are in state `"normal"`. -/
  radiosEnabled : Bool
  /-- `progress_bar` value. -/
  progressBarValue : ℤ
  /-- lines appended to `text_status` by `_log_status`. -/
  statusLog : List String
deriving DecidableEq

/-- State after `_criar_widgets`: everything enabled, progress 0, the log
holding the initial `"Pronto"` line (app_gui.py line 108). -/
def guiInitialState : GuiState :=
  { botaoBaixarEnabled := true, entryUrlEditable := true, radiosEnabled := true,
    progressBarValue := 0, statusLog := ["Pronto"] }

/-- One presentation-layer effect. -/
inductive GuiAction where
  | logStatus (msg : String)
  | setProgressBar (valor : ℤ)
  | showErrorBox (titulo msg : String)
  | setUiState (ativo : Bool)
deriving DecidableEq

/-- Running one `GuiAction` against the widget state. `_set_ui_state(ativo)`
(app_gui.py lines 201-209) sets the button, the entry and both radio buttons
from the one `ativo` flag. -/
def applyAction (st : GuiState) : GuiAction → GuiState
  | GuiAction.logStatus m => { st with statusLog := st.statusLog ++ [m] }
  | GuiAction.setProgressBar v => { st with progressBarValue := v }
  | GuiAction.showErrorBox _ _ => st
  | GuiAction.setUiState ativo =>
      { st with botaoBaixarEnabled := ativo, entryUrlEditable := ativo,
                radiosEnabled := ativo }

/-- Each `_safe_*` callback of `AppGUI` (app_gui.py lines 213-226) split into
the pair (effects it runs inline on the calling thread, effects it schedules
through `self.master.after(0, ...)` onto the Tk event loop). Scheduling that
goes through another `_safe_*` wrapper is flattened to its net scheduled
effect. `_safe_update_status`: a single scheduled `_log_status`. -/
def safe_update_status (m : String) : List GuiAction × List GuiAction :=
  ([], [GuiAction.logStatus m])

/-- `_safe_update_progress`: a single scheduled `progress_bar.config`. -/
def safe_update_progress (v : ℤ) : List GuiAction × List GuiAction :=
  ([], [GuiAction.setProgressBar v])

/-- `_safe_notify_error`: scheduled error dialog, `_set_ui_state(True)` and
progress reset to 0 — nothing inline. -/
def safe_notify_error (m : String) : List GuiAction × List GuiAction :=
  ([], [GuiAction.showErrorBox "Erro no Download" m,
        GuiAction.setUiState true, GuiAction.setProgressBar 0])

/-- `_safe_notify_complete`: scheduled `_log_status` and `_set_ui_state(True)`. -/
def safe_notify_complete (m : String) : List GuiAction × List GuiAction :=
  ([], [GuiAction.logStatus m, GuiAction.setUiState true])

/-- The constructor wiring of `VideoDownloader` inside `AppGUI.__init__`
(app_gui.py lines 46-51): which `_safe_*` method receives each callback the
worker makes. -/
def deliver : CbEvent → List GuiAction × List GuiAction
  | CbEvent.status m => safe_update_status m
  | CbEvent.progress v => safe_update_progress v
  | CbEvent.error m => safe_notify_error m
  | CbEvent.complete m => safe_notify_complete m

/-- How `_iniciar_download` returned. -/
inductive StartOutcome where
  | emptyUrlWarning
  | cancelledByUser
  | threadSpawned (args : List String)
deriving DecidableEq

/-- Everything one call to `_iniciar_download` did: the widget state it left,
the default extension handed to the save dialog (none when the dialog was
never opened), warning boxes shown, effects scheduled via `master.after`,
the argument tuples of the threads it started, and the outcome. -/
structure StartResult where
  state : GuiState
  dialogExtension : Option String
  warnings : List String
  scheduled : List GuiAction
  spawnedThreads : List (List String)
  outcome : StartOutcome
deriving DecidableEq

/-- The `extensao_padrao` chosen from the selected format
(app_gui.py lines 165-170). -/
def extensao_padrao (formato : String) : String :=
  if formato = "mp4" then ".mp4" else ".mp3"

/-- `AppGUI._iniciar_download` (app_gui.py lines 149-197). `url` is the
content of `var_url`, `formato` the content of `var_formato`, `dialogResult`
what `filedialog.asksaveasfilename` returns (`none` = dialog cancelled).
The spawned thread target is `self.downloader.iniciar_download` with
`args=(url, caminho_final, formato_escolhido)` — three positional
arguments. -/
def iniciar_download_gui (st : GuiState) (url formato : String)
    (dialogResult : Option String) : StartResult :=
  if url = "" then
    { state := st, dialogExtension := none,
      warnings := ["Por favor, cole uma URL do YouTube."],
      scheduled := [], spawnedThreads := [],
      outcome := StartOutcome.emptyUrlWarning }
  else
    let ext := extensao_padrao formato
    match dialogResult with
    | none =>
        { state := { st with statusLog := st.statusLog ++ ["Download cancelado pelo usuário."] },
          dialogExtension := some ext, warnings := [], scheduled := [],
          spawnedThreads := [], outcome := StartOutcome.cancelledByUser }
    | some caminho_final =>
        let st1 := applyAction st (GuiAction.setUiState false)
        let st2 := { st1 with statusLog := st1.statusLog ++
          ["Iniciando download (" ++ formato.toUpper ++ ") para: " ++ url] }
        { state := st2, dialogExtension := some ext, warnings := [],
          scheduled := (safe_update_progress 0).2,
          spawnedThreads := [[url, caminho_final, formato]],
          outcome := StartOutcome.threadSpawned [url, caminho_final, formato] }

/-- Invoking the thread target `self.downloader.iniciar_download` with the
argument tuple the GUI supplied. CPython checks the arity at call time: the
method accepts exactly two positional arguments besides `self`, so any other
tuple raises `TypeError` inside the worker thread before the method body (and
with it its `try` block) ever runs. -/
def runWorker (eng : Engine) (files : List String) :
    List String → Except String RunResult
  | [url, caminho_final] => Except.ok (iniciar_download eng url caminho_final files)
  | args => Except.error ("TypeError: iniciar_download() takes 3 positional arguments but "
      ++ toString (args.length + 1) ++ " were given")

/-! ## Concrete runs used as test inputs -/

/-- A fully successful run with no pytube progress hooks fired. -/
def engNoHooks : Engine := {}

/-- A fully successful run, used as the concrete successful VIDEO job. -/
def engSuccess : Engine :=
  { title := "Some Video", videoResolution := "1080p", audioAbr := "160kbps",
    reportedFilename := "Some Video.mp4" }

/-- A successful run in which the video download reaches 100% of its bytes
(one hook report with `bytes_remaining = 0`) before the audio download begins. -/
def engTwoPhase : Engine := { videoProgress := [(1, 0)] }

/-- A run where the adaptive video-only filter finds nothing although a
progressive combined stream exists. -/
def engNoAdaptive : Engine := { hasVideoStream := false }

/-- A run where `YouTube(url, ...)` itself raises. -/
def engYtFail : Engine := { ytOk := false, ytErrorMsg := "HTTP Error 400: Bad Request" }

/-! ## Helper lemmas about the trace extractors -/

@[simp]
theorem errorMsgs_nil : errorMsgs [] = [] := rfl

@[simp]
theorem errorMsgs_cons_status (s : String) (t : List CbEvent) :
    errorMsgs (CbEvent.status s :: t) = errorMsgs t := rfl

@[simp]
theorem errorMsgs_cons_progress (v : ℤ) (t : List CbEvent) :
    errorMsgs (CbEvent.progress v :: t) = errorMsgs t := rfl

@[simp]
theorem errorMsgs_cons_error (m : String) (t : List CbEvent) :
    errorMsgs (CbEvent.error m :: t) = m :: errorMsgs t := rfl

@[simp]
theorem errorMsgs_cons_complete (m : String) (t : List CbEvent) :
    errorMsgs (CbEvent.complete m :: t) = errorMsgs t := rfl

@[simp]
theorem completeMsgs_nil : completeMsgs [] = [] := rfl

@[simp]
theorem completeMsgs_cons_status (s : String) (t : List CbEvent) :
    completeMsgs (CbEvent.status s :: t) = completeMsgs t := rfl

@[simp]
theorem completeMsgs_cons_progress (v : ℤ) (t : List CbEvent) :
    completeMsgs (CbEvent.progress v :: t) = completeMsgs t := rfl

@[simp]
theorem completeMsgs_cons_error (m : String) (t : List CbEvent) :
    completeMsgs (CbEvent.error m :: t) = completeMsgs t := rfl

@[simp]
theorem completeMsgs_cons_complete (m : String) (t : List CbEvent) :
    completeMsgs (CbEvent.complete m :: t) = m :: completeMsgs t := rfl

@[simp]
theorem progressValues_nil : progressValues [] = [] := rfl

@[simp]
theorem progressValues_cons_status (s : String) (t : List CbEvent) :
    progressValues (CbEvent.status s :: t) = progressValues t := rfl

@[simp]
theorem progressValues_cons_progress (v : ℤ) (t : List CbEvent) :
    progressValues (CbEvent.progress v :: t) = v :: progressValues t := rfl

@[simp]
theorem progressValues_cons_error (m : String) (t : List CbEvent) :
    progressValues (CbEvent.error m :: t) = progressValues t := rfl

@[simp]
theorem progressValues_cons_complete (m : String) (t : List CbEvent) :
    progressValues (CbEvent.complete m :: t) = progressValues t := rfl

@[simp]
theorem errorMsgs_append (a b : List CbEvent) :
    errorMsgs (a ++ b) = errorMsgs a ++ errorMsgs b := by
  simp [errorMsgs, List.filterMap_append]

@[simp]
theorem completeMsgs_append (a b : List CbEvent) :
    completeMsgs (a ++ b) = completeMsgs a ++ completeMsgs b := by
  simp [completeMsgs, List.filterMap_append]

@[simp]
theorem progressValues_append (a b : List CbEvent) :
    progressValues (a ++ b) = progressValues a ++ progressValues b := by
  simp [progressValues, List.filterMap_append]

@[simp]
theorem errorMsgs_downloadEvents (l : List (ℕ × ℕ)) :
    errorMsgs (downloadEvents l) = [] := by
  induction l with
  | nil => rfl
  | cons a t ih => simpa [downloadEvents] using ih

@[simp]
theorem completeMsgs_downloadEvents (l : List (ℕ × ℕ)) :
    completeMsgs (downloadEvents l) = [] := by
  induction l with
  | nil => rfl
  | cons a t ih => simpa [downloadEvents] using ih

@[simp]
theorem progressValues_downloadEvents (l : List (ℕ × ℕ)) :
    progressValues (downloadEvents l) = l.map fun r => on_pytube_progress r.1 r.2 := by
  induction l with
  | nil => rfl
  | cons a t ih => simpa [downloadEvents] using ih

theorem falha_msg_pos (m : String) : 0 < ("Falha no Download:\n" ++ m).length := by
  have h : ("Falha no Download:\n").length = 19 := rfl
  rw [String.length_append]
  omega

theorem ffmpeg_msg_pos (m : String) : 0 < ("Erro no FFmpeg:\n" ++ m).length := by
  have h : ("Erro no FFmpeg:\n").length = 16 := rfl
  rw [String.length_append]
  omega

/-- On a fully successful run the only terminal callback is `notify_complete`,
with the message built from `caminho_final`. -/
theorem run_success_spec (eng : Engine) (url dest : String) (files : List String)
    (h : engineSucceeds eng) :
    errorMsgs (iniciar_download eng url dest files).events = []
    ∧ completeMsgs (iniciar_download eng url dest files).events
        = ["Download Concluído!\nSalvo em: " ++ dest] := by
  obtain ⟨h1, h2, h3, h4, h5, h6⟩ := h
  simp [iniciar_download, downloadBody, limpar_temporarios, h1, h2, h3, h4, h5, h6]

/-- On a failing run the only terminal callback is `notify_error`, with a
non-empty message. -/
theorem run_failure_spec (eng : Engine) (url dest : String) (files : List String)
    (h : engineFails eng) :
    completeMsgs (iniciar_download eng url dest files).events = []
    ∧ ∃ m, errorMsgs (iniciar_download eng url dest files).events = [m] ∧ 0 < m.length := by
  by_cases hy : eng.ytOk
  · by_cases hs : (eng.hasVideoStream && eng.hasAudioStream)
    · by_cases hv : eng.videoDownloadOk
      · by_cases ha : eng.audioDownloadOk
        · by_cases hf : eng.ffmpegOk
          · exfalso
            rcases h with h | h | h | h | h <;> simp_all
          · simp only [Bool.not_eq_true] at hf
            refine ⟨?_, "Erro no FFmpeg:\n" ++ eng.ffmpegStderr, ?_, ffmpeg_msg_pos _⟩ <;>
              simp [iniciar_download, downloadBody, limpar_temporarios, handleExc,
                    hy, hs, hv, ha, hf]
        · simp only [Bool.not_eq_true] at ha
          refine ⟨?_, "Falha no Download:\n" ++ eng.audioErrorMsg, ?_, falha_msg_pos _⟩ <;>
            simp [iniciar_download, downloadBody, limpar_temporarios, handleExc,
                  hy, hs, hv, ha]
      · simp only [Bool.not_eq_true] at hv
        refine ⟨?_, "Falha no Download:\n" ++ eng.videoErrorMsg, ?_, falha_msg_pos _⟩ <;>
          simp [iniciar_download, downloadBody, limpar_temporarios, handleExc,
                hy, hs, hv]
    · simp only [Bool.not_eq_true] at hs
      refine ⟨?_, "Falha no Download:\n" ++ noStreamsMsg, ?_, falha_msg_pos _⟩ <;>
        simp [iniciar_download, downloadBody, limpar_temporarios, handleExc, hy, hs]
  · simp only [Bool.not_eq_true] at hy
    refine ⟨?_, "Falha no Download:\n" ++ eng.ytErrorMsg, ?_, falha_msg_pos _⟩ <;>
      simp [iniciar_download, downloadBody, limpar_temporarios, handleExc, hy]

/-- The raw percentage lies in `[0, 100]` whenever pytube reports
`bytes_remaining ≤ filesize`. -/
theorem fetchPercentage_bounds (t r : ℕ) (h : r ≤ t) :
    0 ≤ fetchPercentage t r ∧ fetchPercentage t r ≤ 100 := by
  unfold fetchPercentage
  rcases Nat.eq_zero_or_pos t with ht | ht
  · have hr : r = 0 := Nat.le_zero.mp (ht ▸ h)
    subst ht
    subst hr
    norm_num
  · have htq : (0:ℚ) < t := by exact_mod_cast ht
    have hrq : (r:ℚ) ≤ (t:ℚ) := by exact_mod_cast h
    constructor
    · have h1 : (0:ℚ) ≤ ((t:ℚ) - r) / t := div_nonneg (by linarith) htq.le
      nlinarith
    · have h1 : ((t:ℚ) - r) / t ≤ 1 := by
        rw [div_le_one htq]
        linarith
      nlinarith

/-- `int(percentage * 0.9)` is the floor on percentages in `[0, 100]` and
lands in `[0, 90]`. -/
theorem normalizeFetch_bounds (p : ℚ) (h0 : 0 ≤ p) (h1 : p ≤ 100) :
    normalizeFetchPercent p = ⌊p * (9 / 10)⌋
    ∧ 0 ≤ normalizeFetchPercent p ∧ normalizeFetchPercent p ≤ 90 := by
  have hq : (0:ℚ) ≤ p * (9 / 10) := by nlinarith
  have heq : normalizeFetchPercent p = ⌊p * (9 / 10)⌋ := by
    simp [normalizeFetchPercent, pyInt, hq]
  refine ⟨heq, ?_, ?_⟩
  · rw [heq]
    exact Int.floor_nonneg.mpr hq
  · rw [heq]
    have h2 : p * (9 / 10) ≤ 90 := by nlinarith
    calc ⌊p * (9 / 10)⌋ ≤ ⌊(90:ℚ)⌋ := Int.floor_le_floor h2
      _ = 90 := by norm_num

theorem on_pytube_progress_bounds (t r : ℕ) (h : r ≤ t) :
    0 ≤ on_pytube_progress t r ∧ on_pytube_progress t r ≤ 90 := by
  obtain ⟨h0, h1⟩ := fetchPercentage_bounds t r h
  obtain ⟨-, h2, h3⟩ := normalizeFetch_bounds _ h0 h1
  exact ⟨h2, h3⟩

/-- Every value handed to `update_progress` during a run is one of: a literal
0, the merge-phase 90, the final 100, or a pytube fetch report. -/
theorem progressValues_run (eng : Engine) (url dest : String) (files : List String) (v : ℤ)
    (hv : v ∈ progressValues (iniciar_download eng url dest files).events) :
    v = 0 ∨ v = mergeProgress ∨ v = finishProgress
    ∨ (∃ r ∈ eng.videoProgress, on_pytube_progress r.1 r.2 = v)
    ∨ (∃ r ∈ eng.audioProgress, on_pytube_progress r.1 r.2 = v) := by
  cases hy : eng.ytOk <;> cases hs : (eng.hasVideoStream && eng.hasAudioStream) <;>
    cases hvd : eng.videoDownloadOk <;> cases had : eng.audioDownloadOk <;>
    cases hf : eng.ffmpegOk <;>
  · simp [iniciar_download, downloadBody, limpar_temporarios, handleExc,
          hy, hs, hvd, had, hf, List.mem_map] at hv ⊢
    aesop

/-! ## The claims -/

/-- C1: the claim says `start(url, destination, AUDIO)` runs a pipeline that
fetches the best audio-only stream and transcodes it, driven by a format
policy table no other component branches on. In the code the GUI spawns the
worker with the three-element argument tuple
`(url, caminho_final, formato_escolhido)` while
`VideoDownloader.iniciar_download` accepts only `(url, caminho_final)`, so
every worker dies with `TypeError` before any fetch; no audio-only path or
policy table exists in `downloader.py`, and the GUI itself branches on the
format to pick the save-dialog extension. -/
theorem c1_audio_start_raises_typeerror :
    (iniciar_download_gui guiInitialState "https://youtu.be/abc" "mp3"
        (some "/tmp/x.mp3")).spawnedThreads
      = [["https://youtu.be/abc", "/tmp/x.mp3", "mp3"]]
    ∧ (∀ eng files, runWorker eng files ["https://youtu.be/abc", "/tmp/x.mp3", "mp3"]
        = Except.error
            "TypeError: iniciar_download() takes 3 positional arguments but 4 were given")
    ∧ extensao_padrao "mp3" ≠ extensao_padrao "mp4" := by
  refine ⟨rfl, fun _ _ => rfl, by decide⟩

/-- C2 counterexample: two immediate direct calls to the start handler are
both accepted — each spawns a worker thread — and neither is rejected; no
JobAlreadyActive rejection exists in the code. -/
theorem c2_counterexample :
    (iniciar_download_gui guiInitialState "u" "mp4" (some "/tmp/x.mp4")).outcome
        = StartOutcome.threadSpawned ["u", "/tmp/x.mp4", "mp4"]
    ∧ (iniciar_download_gui
          (iniciar_download_gui guiInitialState "u" "mp4" (some "/tmp/x.mp4")).state
          "u" "mp4" (some "/tmp/x.mp4")).outcome
        = StartOutcome.threadSpawned ["u", "/tmp/x.mp4", "mp4"]
    ∧ (iniciar_download_gui guiInitialState "u" "mp4" (some "/tmp/x.mp4")).spawnedThreads.length
        + (iniciar_download_gui
            (iniciar_download_gui guiInitialState "u" "mp4" (some "/tmp/x.mp4")).state
            "u" "mp4" (some "/tmp/x.mp4")).spawnedThreads.length = 2 := by
  decide

/-- C2 amended: the start handler performs no active-job check — every direct
call with a non-empty URL and a confirmed save dialog spawns a worker, even
while one is already running. The single-job constraint is enforced only at
the UI level: an accepted start disables the download button (and the second
direct call leaves it disabled) before spawning its thread. -/
theorem c2_start_has_no_active_job_guard (st : GuiState) (url formato caminho : String)
    (h : url ≠ "") :
    (iniciar_download_gui st url formato (some caminho)).outcome
        = StartOutcome.threadSpawned [url, caminho, formato]
    ∧ (iniciar_download_gui st url formato (some caminho)).state.botaoBaixarEnabled = false
    ∧ (iniciar_download_gui (iniciar_download_gui st url formato (some caminho)).state
          url formato (some caminho)).spawnedThreads = [[url, caminho, formato]] := by
  simp [iniciar_download_gui, h, applyAction]

theorem c2_witness :
    (("u" : String) ≠ "")
    ∧ ((iniciar_download_gui guiInitialState "u" "mp4" (some "/tmp/x.mp4")).outcome
          = StartOutcome.threadSpawned ["u", "/tmp/x.mp4", "mp4"]
      ∧ (iniciar_download_gui guiInitialState "u" "mp4"
            (some "/tmp/x.mp4")).state.botaoBaixarEnabled = false
      ∧ (iniciar_download_gui
            (iniciar_download_gui guiInitialState "u" "mp4" (some "/tmp/x.mp4")).state
            "u" "mp4" (some "/tmp/x.mp4")).spawnedThreads = [["u", "/tmp/x.mp4", "mp4"]]) :=
  ⟨by decide, c2_start_has_no_active_job_guard guiInitialState "u" "mp4" "/tmp/x.mp4" (by decide)⟩

/-- C3: when any pipeline step raises, the exception is handled inside
`iniciar_download` (the `except Exception` clause is a catch-all): exactly
one `notify_error` with a non-empty message is the only terminal callback,
and the `_safe_notify_error` handler for it runs nothing inline — it only
schedules the error dialog, `_set_ui_state(True)` (Job State back to IDLE)
and a progress reset to 0 — after which a further start with a non-empty URL
is accepted. -/
theorem c3_engine_error_surfaced_via_notify_error
    (eng : Engine) (url dest : String) (files : List String) (h : engineFails eng) :
    (∃ m, errorMsgs (iniciar_download eng url dest files).events = [m] ∧ 0 < m.length)
    ∧ completeMsgs (iniciar_download eng url dest files).events = []
    ∧ (∀ m, (safe_notify_error m).1 = [])
    ∧ (∀ m st, ((safe_notify_error m).2.foldl applyAction st).botaoBaixarEnabled = true
          ∧ ((safe_notify_error m).2.foldl applyAction st).progressBarValue = 0)
    ∧ (∀ m st u f c, u ≠ "" →
        (iniciar_download_gui ((safe_notify_error m).2.foldl applyAction st) u f
            (some c)).outcome
          = StartOutcome.threadSpawned [u, c, f]) := by
  obtain ⟨hc, hm⟩ := run_failure_spec eng url dest files h
  refine ⟨hm, hc, fun m => rfl, fun m st => ⟨rfl, rfl⟩, fun m st u f c hu => ?_⟩
  simp [iniciar_download_gui, hu]

theorem c3_witness :
    engineFails engYtFail
    ∧ ((∃ m, errorMsgs (iniciar_download engYtFail "u" "/tmp/o.mp4" []).events = [m]
          ∧ 0 < m.length)
      ∧ completeMsgs (iniciar_download engYtFail "u" "/tmp/o.mp4" []).events = []
      ∧ (∀ m, (safe_notify_error m).1 = [])
      ∧ (∀ m st, ((safe_notify_error m).2.foldl applyAction st).botaoBaixarEnabled = true
            ∧ ((safe_notify_error m).2.foldl applyAction st).progressBarValue = 0)
      ∧ (∀ m st u f c, u ≠ "" →
          (iniciar_download_gui ((safe_notify_error m).2.foldl applyAction st) u f
              (some c)).outcome
            = StartOutcome.threadSpawned [u, c, f])) :=
  ⟨Or.inl rfl, c3_engine_error_surfaced_via_notify_error engYtFail "u" "/tmp/o.mp4" [] (Or.inl rfl)⟩

/-- C4 counterexample: in a fully successful concrete run the report emitted
at the post-processing (FFmpeg merge) step is 90: the normalized value
sequence is [0, 0, 90, 100] and no report of 95 ever occurs — refuting
"every post-processing report is normalized to exactly 95". -/
theorem c4_counterexample :
    CbEvent.status "Juntando áudio e vídeo com FFmpeg..."
        ∈ (iniciar_download engNoHooks "u" "/tmp/o.mp4" []).events
    ∧ progressValues (iniciar_download engNoHooks "u" "/tmp/o.mp4" []).events
        = [0, 0, 90, 100]
    ∧ (95 : ℤ) ∉ progressValues (iniciar_download engNoHooks "u" "/tmp/o.mp4" []).events := by
  refine ⟨by decide, by decide, by decide⟩

/-- C4 amended: a fetch-phase raw percentage p ∈ [0, 100] is normalized to
`int(p * 0.9) = ⌊p * 9/10⌋ ∈ [0, 90]`; the post-processing report is exactly
90 (not 95); the finished report is exactly 100. -/
theorem c4_fetch_scaling_and_phase_constants (p : ℚ) (h0 : 0 ≤ p) (h1 : p ≤ 100) :
    normalizeFetchPercent p = ⌊p * (9 / 10)⌋
    ∧ 0 ≤ normalizeFetchPercent p ∧ normalizeFetchPercent p ≤ 90
    ∧ mergeProgress = 90 ∧ finishProgress = 100 := by
  obtain ⟨he, h2, h3⟩ := normalizeFetch_bounds p h0 h1
  exact ⟨he, h2, h3, rfl, rfl⟩

theorem c4_witness :
    ((0:ℚ) ≤ 50 ∧ (50:ℚ) ≤ 100)
    ∧ (normalizeFetchPercent 50 = ⌊(50:ℚ) * (9 / 10)⌋
      ∧ 0 ≤ normalizeFetchPercent 50 ∧ normalizeFetchPercent 50 ≤ 90
      ∧ mergeProgress = 90 ∧ finishProgress = 100)
    ∧ normalizeFetchPercent 50 = 45 :=
  ⟨⟨by norm_num, by norm_num⟩,
   c4_fetch_scaling_and_phase_constants 50 (by norm_num) (by norm_num),
   by norm_num [normalizeFetchPercent, pyInt]⟩

/-- C5 counterexample: with one video progress report reaching 100% of the
video stream, the delivered sequence is [0, 90, 0, 90, 100]: the explicit
`update_progress(0)` before the audio download makes it non-monotonic. -/
theorem c5_counterexample :
    progressValues (iniciar_download engTwoPhase "u" "/tmp/o.mp4" []).events
        = [0, 90, 0, 90, 100]
    ∧ ¬ List.Chain' (· ≤ ·)
        (progressValues (iniciar_download engTwoPhase "u" "/tmp/o.mp4" []).events) := by
  have h90 : on_pytube_progress 1 0 = 90 := by
    norm_num [on_pytube_progress, normalizeFetchPercent, fetchPercentage, pyInt]
  have h : progressValues (iniciar_download engTwoPhase "u" "/tmp/o.mp4" []).events
      = [0, 90, 0, 90, 100] := by
    simp [iniciar_download, downloadBody, limpar_temporarios, engTwoPhase, h90,
          mergeProgress, finishProgress]
  refine ⟨h, ?_⟩
  rw [h]
  simp [List.chain'_cons]

/-- C5 amended: every delivered progress value is an integer in [0, 100]
(whenever pytube reports `bytes_remaining ≤ filesize`), but the sequence is
not monotonically non-decreasing: the worker explicitly resets progress to 0
between the video fetch and the audio fetch. -/
theorem c5_progress_values_bounded (eng : Engine) (url dest : String) (files : List String)
    (h : ∀ r ∈ eng.videoProgress ++ eng.audioProgress, r.2 ≤ r.1) :
    ∀ v ∈ progressValues (iniciar_download eng url dest files).events, 0 ≤ v ∧ v ≤ 100 := by
  intro v hv
  rcases progressValues_run eng url dest files v hv with
    rfl | rfl | rfl | ⟨r, hr, rfl⟩ | ⟨r, hr, rfl⟩
  · exact ⟨le_rfl, by norm_num⟩
  · exact ⟨by norm_num [mergeProgress], by norm_num [mergeProgress]⟩
  · exact ⟨by norm_num [finishProgress], by norm_num [finishProgress]⟩
  · obtain ⟨hb1, hb2⟩ := on_pytube_progress_bounds r.1 r.2 (h r (List.mem_append_left _ hr))
    exact ⟨hb1, by omega⟩
  · obtain ⟨hb1, hb2⟩ := on_pytube_progress_bounds r.1 r.2 (h r (List.mem_append_right _ hr))
    exact ⟨hb1, by omega⟩

theorem c5_witness :
    (∀ r ∈ engTwoPhase.videoProgress ++ engTwoPhase.audioProgress, r.2 ≤ r.1)
    ∧ ∀ v ∈ progressValues (iniciar_download engTwoPhase "u" "/tmp/o.mp4" []).events,
        0 ≤ v ∧ v ≤ 100 :=
  ⟨by decide, c5_progress_values_bounded engTwoPhase "u" "/tmp/o.mp4" [] (by decide)⟩

/-- C6 counterexample: a run where no adaptive mp4 video-only stream exists
although a progressive combined stream is available; the job fails at once
with the ValueError message — no fallback is attempted before failing. -/
theorem c6_counterexample :
    engNoAdaptive.hasCombinedStream = true
    ∧ errorMsgs (iniciar_download engNoAdaptive "u" "/tmp/o.mp4" []).events
        = ["Falha no Download:\n" ++ noStreamsMsg]
    ∧ completeMsgs (iniciar_download engNoAdaptive "u" "/tmp/o.mp4" []).events = [] := by
  refine ⟨rfl, by decide, by decide⟩

/-- C6 amended: stream selection requests the best adaptive mp4 video-only
plus the best adaptive mp4 audio-only stream; whenever either is missing the
job fails immediately with the ValueError message — there is no fallback to
a combined or any best stream. -/
theorem c6_no_fallback_on_missing_adaptive_stream
    (eng : Engine) (url dest : String) (files : List String)
    (hy : eng.ytOk = true) (hs : (eng.hasVideoStream && eng.hasAudioStream) = false) :
    errorMsgs (iniciar_download eng url dest files).events
        = ["Falha no Download:\n" ++ noStreamsMsg]
    ∧ completeMsgs (iniciar_download eng url dest files).events = [] := by
  constructor <;>
    simp [iniciar_download, downloadBody, limpar_temporarios, handleExc, hy, hs]

theorem c6_witness :
    (engNoAdaptive.ytOk = true
      ∧ (engNoAdaptive.hasVideoStream && engNoAdaptive.hasAudioStream) = false)
    ∧ (errorMsgs (iniciar_download engNoAdaptive "u2" "/tmp/o2.mp4" []).events
        = ["Falha no Download:\n" ++ noStreamsMsg]
      ∧ completeMsgs (iniciar_download engNoAdaptive "u2" "/tmp/o2.mp4" []).events = []) :=
  ⟨⟨rfl, rfl⟩,
   c6_no_fallback_on_missing_adaptive_stream engNoAdaptive "u2" "/tmp/o2.mp4" [] rfl rfl⟩

/-- C7: starting with an empty URL returns synchronously after a warning box:
no thread is spawned, nothing is scheduled through the dispatch boundary (so
none of the four lifecycle callbacks can fire), and the widget state is left
untouched. -/
theorem c7_empty_url_rejected_synchronously (st : GuiState) (formato : String)
    (dialogResult : Option String) :
    (iniciar_download_gui st "" formato dialogResult).spawnedThreads = []
    ∧ (iniciar_download_gui st "" formato dialogResult).scheduled = []
    ∧ (iniciar_download_gui st "" formato dialogResult).state = st
    ∧ (iniciar_download_gui st "" formato dialogResult).outcome
        = StartOutcome.emptyUrlWarning := by
  refine ⟨rfl, rfl, rfl, rfl⟩

/-- C8: on a successful run the only terminal callback is `notify_complete`
and its message is a fixed prefix followed by the stored `caminho_final`; it
holds for every engine, in particular for every `reportedFilename` — the
engine-reported path is never consulted. -/
theorem c8_complete_message_uses_destination
    (eng : Engine) (url dest : String) (files : List String) (h : engineSucceeds eng) :
    completeMsgs (iniciar_download eng url dest files).events
        = ["Download Concluído!\nSalvo em: " ++ dest]
    ∧ errorMsgs (iniciar_download eng url dest files).events = []
    ∧ ∃ pre, "Download Concluído!\nSalvo em: " ++ dest = pre ++ dest := by
  obtain ⟨he, hc⟩ := run_success_spec eng url dest files h
  exact ⟨hc, he, "Download Concluído!\nSalvo em: ", rfl⟩

theorem c8_witness :
    engineSucceeds engSuccess
    ∧ (completeMsgs (iniciar_download engSuccess "u" "/tmp/out.mp4" []).events
        = ["Download Concluído!\nSalvo em: " ++ "/tmp/out.mp4"]
      ∧ errorMsgs (iniciar_download engSuccess "u" "/tmp/out.mp4" []).events = []
      ∧ ∃ pre, "Download Concluído!\nSalvo em: " ++ "/tmp/out.mp4" = pre ++ "/tmp/out.mp4") :=
  ⟨⟨rfl, rfl, rfl, rfl, rfl, rfl⟩,
   c8_complete_message_uses_destination engSuccess "u" "/tmp/out.mp4" []
     ⟨rfl, rfl, rfl, rfl, rfl, rfl⟩⟩

/-- C9: every callback delivery the coordinator makes lands in a `_safe_*`
wrapper whose inline effect list is empty — its entire, non-empty effect
list is scheduled through `master.after(0, ...)`, the dispatch boundary. -/
theorem c9_all_callbacks_go_through_dispatch_boundary (e : CbEvent) :
    (deliver e).1 = [] ∧ (deliver e).2 ≠ [] := by
  cases e <;> simp [deliver, safe_update_status, safe_update_progress,
                    safe_notify_error, safe_notify_complete]

/-- C10: whatever the engine did, once `iniciar_download` returns, the
`finally` cleanup has removed both temporary files from the working
directory. -/
theorem c10_temp_files_removed (eng : Engine) (url dest : String) (files : List String) :
    TEMP_VIDEO_FILE ∉ (iniciar_download eng url dest files).files
    ∧ TEMP_AUDIO_FILE ∉ (iniciar_download eng url dest files).files := by
  simp [iniciar_download, limpar_temporarios, List.mem_filter]
